import Mathlib

/-!
Verification development for `src/embedding_sidecar.py`: a small HTTP sidecar
exposing text embedding (`POST /embed`), chat generation (`POST /query`) and a
health check (`GET /health`), with two lazily-initialized, process-wide model
cache slots (`_embed_model`, `_llm_model`).

The Python globals become an explicit `SidecarState` threaded through the
handlers.  The two external ML libraries (sentence-transformers and the
HuggingFace causal LM) are black boxes; each is modelled as a structure of
functions together with the documented contract the code relies on
(an embedding model returns vectors of one fixed dimension; `model.generate`
returns the input ids followed by at most `max_new_tokens` new tokens;
decoding an empty id list yields the empty string).  Construction of a model
(which may raise) is modelled as an `Except` value supplied to the accessor.
Pydantic request validation (required fields, `max_tokens` default 256) is
modelled on optional-field JSON views of the request bodies.
-/

namespace EdgeSight

/-- The external embedding model (`SentenceTransformer`), as the code uses it:
`model.encode([text])[0].tolist()` yields one numeric vector per text, always
of the model's fixed dimension.  Vector entries are modelled as rationals. -/
structure EmbedModelT where
  dim : Nat
  encode : String → List ℚ
  encode_dim : ∀ t : String, (encode t).length = dim

/-- The external causal language model plus tokenizer, as the code uses them.
`newTok ids n` stands for the fresh tokens one `model.generate` call appends
after the prompt `ids` under budget `n` (`max_new_tokens`); per the library
contract it appends at most `n` new tokens (none when `n ≤ 0`), and decoding
an empty id list yields the empty string. -/
structure LLMModel (Tok : Type) where
  template : String → String → String
  encode : String → List Tok
  newTok : List Tok → Int → List Tok
  newTok_le : ∀ (ids : List Tok) (n : Int), (newTok ids n).length ≤ n.toNat
  decode : List Tok → String
  decode_nil : decode [] = ""

/-- The process-wide mutable state: the two lazily-initialized cache slots
`_embed_model` and `_llm_model` (both start as `None`). -/
structure SidecarState (E L : Type) where
  embed_model : Option E
  llm_model : Option L

/-- Result of running one accessor or handler: the returned value (or the
re-raised exception), the state of the globals afterwards, and whether model
construction was attempted during the call. -/
structure StepResult (α E L : Type) where
  result : Except String α
  state : SidecarState E L
  constructed : Bool

/-- `get_embed_model`: if `_embed_model` is `None`, attempt construction
(`construct` is the outcome of `SentenceTransformer(...)`); on success store
the model in the slot, on failure re-raise and leave the slot `None`.  If the
slot is already filled, return the cached handle without constructing. -/
def get_embed_model {E L : Type} (construct : Except String E)
    (st : SidecarState E L) : StepResult E E L :=
  match st.embed_model with
  | some m => ⟨Except.ok m, st, false⟩
  | none =>
    match construct with
    | Except.ok m => ⟨Except.ok m, ⟨some m, st.llm_model⟩, true⟩
    | Except.error e => ⟨Except.error e, st, true⟩

/-- `get_llm_model`: same lazy-initialization pattern on the `_llm_model`
slot (`construct` is the outcome of loading the model/tokenizer pair). -/
def get_llm_model {E L : Type} (construct : Except String L)
    (st : SidecarState E L) : StepResult L E L :=
  match st.llm_model with
  | some m => ⟨Except.ok m, st, false⟩
  | none =>
    match construct with
    | Except.ok m => ⟨Except.ok m, ⟨st.embed_model, some m⟩, true⟩
    | Except.error e => ⟨Except.error e, st, true⟩

end EdgeSight

namespace EdgeSight

/-- `EmbedRequest` after pydantic validation: `text: str`. -/
structure EmbedRequest where
  text : String

/-- `EmbedResponse`: `embedding: list[float]`. -/
structure EmbedResponse where
  embedding : List ℚ

/-- `QueryRequest` after pydantic validation:
`system: str`, `user: str`, `max_tokens: int = 256`. -/
structure QueryRequest where
  system : String
  user : String
  max_tokens : Int

/-- `QueryResponse`: `answer: str`. -/
structure QueryResponse where
  answer : String

/-- The `/health` response payload. -/
structure HealthResponse where
  status : String

/-- A JSON request body for `/embed`, before validation: the `text` field may
be absent. -/
structure EmbedRequestJson where
  text : Option String

/-- A JSON request body for `/query`, before validation: each field may be
absent. -/
structure QueryRequestJson where
  system : Option String
  user : Option String
  max_tokens : Option Int

/-- Pydantic validation of `EmbedRequest`: the `text` field is required, so a
body missing it is rejected before the handler runs. -/
def validateEmbed (j : EmbedRequestJson) : Except String EmbedRequest :=
  match j.text with
  | some t => Except.ok ⟨t⟩
  | none => Except.error "field required: text"

/-- Pydantic validation of `QueryRequest`: `system` and `user` are required,
`max_tokens` defaults to 256 when absent; any integer value is accepted (the
model declares no range constraint). -/
def validateQuery (j : QueryRequestJson) : Except String QueryRequest :=
  match j.system, j.user with
  | some s, some u => Except.ok ⟨s, u, j.max_tokens.getD 256⟩
  | none, _ => Except.error "field required: system"
  | some _, none => Except.error "field required: user"

/-- Python's `str.strip()`: remove leading and trailing whitespace. -/
def pyStrip (s : String) : String :=
  ⟨(((s.data.dropWhile Char.isWhitespace).reverse.dropWhile
      Char.isWhitespace).reverse)⟩

/-- The keyword arguments the `/query` handler passes to `model.generate`:
`max_new_tokens=req.max_tokens`, `temperature=0.2`, and no `do_sample`
argument (so that setting is left to the model's own generation defaults).
The temperature literal 0.2 is rendered as the rational 1/5. -/
structure GenKwargs where
  max_new_tokens : Int
  temperature : Option ℚ
  do_sample : Option Bool

/-- The concrete `GenKwargs` built by the `/query` handler for a request. -/
def queryGenKwargs (req : QueryRequest) : GenKwargs :=
  ⟨req.max_tokens, some (1 / 5), none⟩

/-- `model.generate(**model_inputs, ...)` per the HuggingFace contract: the
returned id sequence is the input ids followed by the newly generated
tokens. -/
def generate {Tok : Type} (m : LLMModel Tok) (ids : List Tok)
    (k : GenKwargs) : List Tok :=
  ids ++ m.newTok ids k.max_new_tokens

/-- The `/query` handler body after model access (lines 73-98 of the source):
render the two-turn chat transcript, tokenize, generate, drop the first
`len(input_ids)` tokens of the output, decode, strip whitespace. -/
def query {Tok : Type} (m : LLMModel Tok) (req : QueryRequest) : String :=
  let text := m.template req.system req.user
  let input_ids := m.encode text
  let generated_ids := generate m input_ids (queryGenKwargs req)
  let answer := m.decode (generated_ids.drop input_ids.length)
  pyStrip answer

/-- The `/embed` handler body after validation: load (or fetch) the cached
embedding model, encode the single text, return the vector.  A model-load
failure propagates to the HTTP layer. -/
def embed {L : Type} (construct : Except String EmbedModelT)
    (st : SidecarState EmbedModelT L) (req : EmbedRequest) :
    StepResult EmbedResponse EmbedModelT L :=
  match get_embed_model construct st with
  | ⟨Except.ok m, st2, c⟩ => ⟨Except.ok ⟨m.encode req.text⟩, st2, c⟩
  | ⟨Except.error e, st2, c⟩ => ⟨Except.error e, st2, c⟩

/-- `POST /embed` as served: framework validation runs first; a body failing
validation is rejected with a client error and the handler (hence any model
loading or encoding) never runs. -/
def handleEmbed {L : Type} (construct : Except String EmbedModelT)
    (st : SidecarState EmbedModelT L) (j : EmbedRequestJson) :
    StepResult EmbedResponse EmbedModelT L :=
  match validateEmbed j with
  | Except.error e => ⟨Except.error e, st, false⟩
  | Except.ok req => embed construct st req

/-- The `/query` handler including model access: load (or fetch) the cached
LLM/tokenizer pair, then run the generation pipeline. -/
def queryEndpoint {Tok : Type} (construct : Except String (LLMModel Tok))
    (st : SidecarState EmbedModelT (LLMModel Tok)) (req : QueryRequest) :
    StepResult QueryResponse EmbedModelT (LLMModel Tok) :=
  match get_llm_model construct st with
  | ⟨Except.ok m, st2, c⟩ => ⟨Except.ok ⟨query m req⟩, st2, c⟩
  | ⟨Except.error e, st2, c⟩ => ⟨Except.error e, st2, c⟩

/-- `POST /query` as served: framework validation first, then the handler. -/
def handleQuery {Tok : Type} (construct : Except String (LLMModel Tok))
    (st : SidecarState EmbedModelT (LLMModel Tok)) (j : QueryRequestJson) :
    StepResult QueryResponse EmbedModelT (LLMModel Tok) :=
  match validateQuery j with
  | Except.error e => ⟨Except.error e, st, false⟩
  | Except.ok req => queryEndpoint construct st req

/-- `GET /health`: returns the fixed payload and touches nothing. -/
def health {E L : Type} (st : SidecarState E L) :
    HealthResponse × SidecarState E L :=
  (⟨"ok"⟩, st)

/-- Modelled from the spec: the language model's own generation configuration
defaults to non-greedy sampling (`do_sample = true`); a generate call that
passes no `do_sample` keyword inherits this default. -/
def modelDefaultDoSample : Bool := true

/-- The sampling mode actually in effect for a generate call: the explicitly
passed `do_sample` if any, otherwise the model default. -/
def effectiveDoSample (k : GenKwargs) : Bool :=
  k.do_sample.getD modelDefaultDoSample

/-- Modelled from the spec: generation output is strictly reproducible across
runs exactly when decoding is greedy (sampling disabled). -/
def strictlyReproducible (k : GenKwargs) : Prop :=
  effectiveDoSample k = false

/-- A string with no leading and no trailing whitespace character. -/
def noEdgeWhitespace (s : String) : Prop :=
  (∀ c : Char, s.data.head? = some c → c.isWhitespace = false) ∧
  (∀ c : Char, s.data.getLast? = some c → c.isWhitespace = false)

/-- A concrete embedding model instance (dimension 3), used to exercise the
endpoint theorems on closed inputs. -/
def sampleEmbedModel : EmbedModelT where
  dim := 3
  encode := fun _ => [0, 0, 0]
  encode_dim := fun _ => rfl

/-- A concrete language-model instance over `Nat` tokens, used to exercise
the endpoint theorems on closed inputs: it satisfies the library contract and
answers a fixed greeting whenever it has any token budget. -/
def sampleLLM : LLMModel Nat where
  template := fun s u => s ++ u
  encode := fun t => List.replicate t.length 0
  newTok := fun _ n => List.replicate n.toNat 1
  newTok_le := fun _ n => by simp
  decode := fun l => if l.isEmpty then "" else "Hi there"
  decode_nil := rfl

end EdgeSight

namespace EdgeSight

/-- The head of `l.dropWhile p` never satisfies `p`. -/
theorem head?_dropWhile_false {α : Type} (p : α → Bool) (l : List α) (c : α)
    (h : (l.dropWhile p).head? = some c) : p c = false := by
  have hne : l.dropWhile p ≠ [] := by
    intro h0
    rw [h0] at h
    simp at h
  have hc : (l.dropWhile p).head hne = c := by
    have := List.head?_eq_head hne
    rw [this] at h
    exact Option.some.inj h
  rw [← hc]
  exact List.head_dropWhile_not p l hne

/-- An element violating `p` survives `l.dropWhile p`. -/
theorem mem_dropWhile_of_not {α : Type} (p : α → Bool) (l : List α) (c : α)
    (hc : c ∈ l) (hp : p c = false) : c ∈ l.dropWhile p := by
  induction l with
  | nil => simp at hc
  | cons a l ih =>
    by_cases hpa : p a = true
    · rw [List.dropWhile_cons, if_pos hpa]
      rcases List.mem_cons.mp hc with h | h
      · subst h
        rw [hp] at hpa
        exact absurd hpa (by simp)
      · exact ih h
    · rw [List.dropWhile_cons, if_neg hpa]
      exact hc

/-- `pyStrip` is left-then-right whitespace removal. -/
theorem pyStrip_data (s : String) :
    (pyStrip s).data =
      List.rdropWhile Char.isWhitespace (s.data.dropWhile Char.isWhitespace) :=
  rfl

/-- The output of `pyStrip` has no surrounding whitespace. -/
theorem noEdgeWhitespace_pyStrip (s : String) : noEdgeWhitespace (pyStrip s) := by
  constructor
  · intro c hc
    rw [pyStrip_data] at hc
    have hrne : List.rdropWhile Char.isWhitespace
        (s.data.dropWhile Char.isWhitespace) ≠ [] := by
      intro h0
      rw [h0] at hc
      simp at hc
    obtain ⟨t, ht⟩ := List.rdropWhile_prefix Char.isWhitespace
      (s.data.dropWhile Char.isWhitespace)
    have hh : (s.data.dropWhile Char.isWhitespace).head? = some c := by
      rw [← ht, List.head?_append_of_ne_nil _ hrne]
      exact hc
    exact head?_dropWhile_false _ _ _ hh
  · intro c hc
    rw [pyStrip_data] at hc
    have hmem : c ∈ (List.rdropWhile Char.isWhitespace
        (s.data.dropWhile Char.isWhitespace)).getLast? := hc
    obtain ⟨h1, h2⟩ := List.mem_getLast?_eq_getLast hmem
    have hlast := List.rdropWhile_last_not Char.isWhitespace
      (s.data.dropWhile Char.isWhitespace) h1
    rw [← h2] at hlast
    simpa using hlast

/-- If the input has any non-whitespace character, `pyStrip` keeps it. -/
theorem pyStrip_data_ne_nil (s : String)
    (h : ∃ c ∈ s.data, c.isWhitespace = false) : (pyStrip s).data ≠ [] := by
  obtain ⟨c, hcl, hcw⟩ := h
  rw [pyStrip_data]
  intro h0
  rw [List.rdropWhile_eq_nil_iff] at h0
  have hcd : c ∈ s.data.dropWhile Char.isWhitespace :=
    mem_dropWhile_of_not _ _ _ hcl hcw
  have := h0 c hcd
  rw [hcw] at this
  exact Bool.false_ne_true this

/-- Unfolding of the `/query` pipeline: the answer is the stripped decoding
of exactly the freshly generated tokens (the echoed prompt ids are dropped). -/
theorem query_eq_newTok {Tok : Type} (m : LLMModel Tok) (req : QueryRequest) :
    query m req =
      pyStrip (m.decode (m.newTok (m.encode (m.template req.system req.user))
        req.max_tokens)) := by
  simp only [query, generate, queryGenKwargs, List.drop_left]

/-- C1: for each accessor (`get_embed_model`, `get_llm_model`), the first
successful call constructs the model and stores it in its cache slot; a call
finding the slot filled returns the cached handle without constructing and
leaves the state unchanged; a failed construction re-raises the error and
leaves the slot empty so the next call retries; each accessor leaves the
other slot untouched, so a successfully initialized slot stays non-null. -/
theorem get_model_cache_behaviour {E L : Type} (ce : Except String E)
    (cl : Except String L) (st : SidecarState E L) :
    (∀ m : E, st.embed_model = none → ce = Except.ok m →
      get_embed_model ce st = ⟨Except.ok m, ⟨some m, st.llm_model⟩, true⟩) ∧
    (∀ m : E, st.embed_model = some m →
      get_embed_model ce st = ⟨Except.ok m, st, false⟩) ∧
    (∀ e : String, st.embed_model = none → ce = Except.error e →
      get_embed_model ce st = ⟨Except.error e, st, true⟩ ∧
        (get_embed_model ce st).state.embed_model = none) ∧
    (∀ m : L, st.llm_model = none → cl = Except.ok m →
      get_llm_model cl st = ⟨Except.ok m, ⟨st.embed_model, some m⟩, true⟩) ∧
    (∀ m : L, st.llm_model = some m →
      get_llm_model cl st = ⟨Except.ok m, st, false⟩) ∧
    (∀ e : String, st.llm_model = none → cl = Except.error e →
      get_llm_model cl st = ⟨Except.error e, st, true⟩ ∧
        (get_llm_model cl st).state.llm_model = none) ∧
    (get_embed_model ce st).state.llm_model = st.llm_model ∧
    (get_llm_model cl st).state.embed_model = st.embed_model := by
  refine ⟨?_, ?_, ?_, ?_, ?_, ?_, ?_, ?_⟩
  · intro m h1 h2
    subst h2
    simp [get_embed_model, h1]
  · intro m h1
    simp [get_embed_model, h1]
  · intro e h1 h2
    subst h2
    simp [get_embed_model, h1]
  · intro m h1 h2
    subst h2
    simp [get_llm_model, h1]
  · intro m h1
    simp [get_llm_model, h1]
  · intro e h1 h2
    subst h2
    simp [get_llm_model, h1]
  · cases he : st.embed_model <;> cases ce <;> simp [get_embed_model, he]
  · cases hl : st.llm_model <;> cases cl <;> simp [get_llm_model, hl]

/-- Witness for C1 at concrete inputs: a first successful load fills the
embed slot; a failed LLM load re-raises and keeps that slot empty while the
already-filled embed slot survives. -/
theorem get_model_cache_behaviour_witness :
    @get_embed_model Nat Nat (Except.ok 5) ⟨none, none⟩ =
        ⟨Except.ok 5, ⟨some 5, none⟩, true⟩ ∧
      @get_llm_model Nat Nat (Except.error "load failed") ⟨some 5, none⟩ =
        ⟨Except.error "load failed", ⟨some 5, none⟩, true⟩ ∧
      @get_embed_model Nat Nat (Except.error "ignored") ⟨some 5, none⟩ =
        ⟨Except.ok 5, ⟨some 5, none⟩, false⟩ :=
  ⟨(get_model_cache_behaviour (Except.ok 5) (Except.error "load failed")
      ⟨none, none⟩).1 5 rfl rfl,
   ((get_model_cache_behaviour (Except.ok 5) (Except.error "load failed")
      ⟨some 5, none⟩).2.2.2.2.2.1 "load failed" rfl rfl).1,
   (get_model_cache_behaviour (Except.error "ignored")
      (Except.error "load failed") ⟨some 5, none⟩).2.1 5 rfl⟩

/-- C2: the `/query` answer is computed by dropping the first
`len(input_ids)` tokens of the model output before decoding, so it is the
(stripped) decoding of exactly the newly generated continuation tokens and
never contains the rendered prompt token echo. -/
theorem query_strips_prompt_echo {Tok : Type} (m : LLMModel Tok)
    (req : QueryRequest) :
    (generate m (m.encode (m.template req.system req.user))
        (queryGenKwargs req)).drop
        (m.encode (m.template req.system req.user)).length =
      m.newTok (m.encode (m.template req.system req.user)) req.max_tokens ∧
    query m req =
      pyStrip (m.decode (m.newTok (m.encode (m.template req.system req.user))
        req.max_tokens)) :=
  ⟨List.drop_left _ _, query_eq_newTok m req⟩

/-- C3: the `/query` generate call passes a fixed temperature of 0.2 (= 1/5)
and no `do_sample` argument; with the model default in effect sampling is
enabled (not greedy), so decoding is not in the strictly reproducible mode. -/
theorem query_sampling_config (req : QueryRequest) :
    (queryGenKwargs req).temperature = some (1 / 5) ∧
    (queryGenKwargs req).do_sample = none ∧
    effectiveDoSample (queryGenKwargs req) = true ∧
    ¬ strictlyReproducible (queryGenKwargs req) := by
  refine ⟨rfl, rfl, rfl, ?_⟩
  simp [strictlyReproducible, effectiveDoSample, queryGenKwargs,
    modelDefaultDoSample]

/-- C4: `GET /health` returns exactly the payload with status "ok" and
returns the model-cache state unchanged, whatever that state is. -/
theorem health_fixed_and_pure {E L : Type} (st : SidecarState E L) :
    health st = (⟨"ok"⟩, st) :=
  rfl

/-- C5: a `/query` request with `max_tokens = 0` yields the empty answer
(the generate contract produces no new tokens on a zero budget) and no
error. -/
theorem query_zero_budget_empty {Tok : Type} (m : LLMModel Tok)
    (s u : String) : query m ⟨s, u, 0⟩ = "" := by
  have h := m.newTok_le (m.encode (m.template s u)) 0
  have hnil : m.newTok (m.encode (m.template s u)) 0 = [] :=
    List.length_eq_zero.mp (Nat.le_zero.mp (by simpa using h))
  rw [query_eq_newTok]
  simp only [hnil, m.decode_nil]
  rfl

/-- C6: every successful `/query` answer is whitespace-trimmed, and whenever
the decoded continuation contains any non-whitespace character (as the
concrete greeting scenario does) the answer is non-empty. -/
theorem query_answer_trimmed {Tok : Type} (m : LLMModel Tok)
    (req : QueryRequest) :
    noEdgeWhitespace (query m req) ∧
    ((∃ c ∈ (m.decode (m.newTok (m.encode (m.template req.system req.user))
        req.max_tokens)).data, c.isWhitespace = false) →
      0 < (query m req).length) := by
  constructor
  · rw [query_eq_newTok]
    exact noEdgeWhitespace_pyStrip _
  · intro h
    rw [query_eq_newTok]
    exact List.length_pos.mpr (pyStrip_data_ne_nil _ h)

/-- Witness for C6: the concrete scenario (system "You are concise.", user
"Say hi.", max_tokens 10) on a concrete model yields a non-empty answer. -/
theorem query_answer_trimmed_witness :
    0 < (query sampleLLM ⟨"You are concise.", "Say hi.", 10⟩).length :=
  (query_answer_trimmed sampleLLM ⟨"You are concise.", "Say hi.", 10⟩).2
    (by decide)

/-- C7: two `/embed` calls with the same text, the first loading the model
and the second hitting the cache, return the same embedding vector, of the
model's fixed dimension each time; the second call constructs nothing. -/
theorem embed_dim_stable {L : Type} (m : EmbedModelT) (lm : Option L)
    (t : String) :
    (handleEmbed (Except.ok m) ⟨none, lm⟩ ⟨some t⟩).result =
      Except.ok ⟨m.encode t⟩ ∧
    (handleEmbed (Except.ok m)
        (handleEmbed (Except.ok m) ⟨none, lm⟩ ⟨some t⟩).state ⟨some t⟩).result =
      Except.ok ⟨m.encode t⟩ ∧
    (handleEmbed (Except.ok m)
        (handleEmbed (Except.ok m) ⟨none, lm⟩ ⟨some t⟩).state
        ⟨some t⟩).constructed = false ∧
    (m.encode t).length = m.dim := by
  refine ⟨?_, ?_, ?_, m.encode_dim t⟩ <;>
    simp [handleEmbed, validateEmbed, embed, get_embed_model]

/-- C8: a `/embed` body missing the `text` field is rejected by validation
with a client error; the state is untouched and no model construction (hence
no encoding) happens. -/
theorem embed_missing_text_rejected {L : Type}
    (construct : Except String EmbedModelT) (st : SidecarState EmbedModelT L)
    (j : EmbedRequestJson) (h : j.text = none) :
    handleEmbed construct st j =
      ⟨Except.error "field required: text", st, false⟩ := by
  simp [handleEmbed, validateEmbed, h]

/-- Witness for C8 at a concrete empty body and state. -/
theorem embed_missing_text_rejected_witness :
    @handleEmbed Nat (Except.ok sampleEmbedModel) ⟨none, none⟩ ⟨none⟩ =
      ⟨Except.error "field required: text", ⟨none, none⟩, false⟩ :=
  embed_missing_text_rejected (Except.ok sampleEmbedModel) ⟨none, none⟩ ⟨none⟩
    rfl

/-- C9: a `/query` body without `max_tokens` validates successfully with the
default 256, and 256 is the generation budget passed to the generate call. -/
theorem query_default_max_tokens (s u : String) :
    validateQuery ⟨some s, some u, none⟩ = Except.ok ⟨s, u, 256⟩ ∧
    (queryGenKwargs ⟨s, u, 256⟩).max_new_tokens = 256 :=
  ⟨rfl, rfl⟩

/-- C10: a negative `max_tokens` passes validation unchanged (no range
constraint) and is handed to the generate call as `max_new_tokens` as is. -/
theorem query_negative_max_tokens_passed (s u : String) (t : Int)
    (h : t < 0) :
    validateQuery ⟨some s, some u, some t⟩ = Except.ok ⟨s, u, t⟩ ∧
    (queryGenKwargs ⟨s, u, t⟩).max_new_tokens = t :=
  ⟨rfl, rfl⟩

/-- Witness for C10 at the concrete negative budget -5. -/
theorem query_negative_max_tokens_passed_witness :
    validateQuery ⟨some "sys", some "usr", some (-5)⟩ =
        Except.ok ⟨"sys", "usr", -5⟩ ∧
      (queryGenKwargs ⟨"sys", "usr", -5⟩).max_new_tokens = -5 :=
  query_negative_max_tokens_passed "sys" "usr" (-5) (by decide)

end EdgeSight
